import Mathlib

/-!
Verification development for the GA4-to-Elasticsearch exporter.

This file gives a shallow embedding of the export pipeline:
the per-property fleet exporter `export_property_data` and orchestrating
`main` of `ga4_export_all.py`, the single-property row mapper of
`ga4_export.py`, and the configuration validation of `ga_auth.py`.
Machine integers are modelled as `Nat`/`Int` with explicit `% 2 ^ 32`
where overflow matters; Python `float` coercion of decimal strings is
modelled exactly over `ℚ` (the rounding of a binary double is not
modelled; every concrete value used here is exactly representable).
Fallible Python code (raising exceptions) is modelled with `Option` and
`Except`.
-/

namespace GA4Export

/-- A JSON-like field value as stored in a document dictionary.  The
`null` constructor models Python `None`; the mappers are proved never to
produce it. -/
inductive Value where
  | null : Value
  | str : String → Value
  | int : Int → Value
  | float : ℚ → Value
deriving DecidableEq

/-- A document is a Python dict from field name to value, modelled as an
insertion-ordered association list with unique keys maintained by
`dictSet`. -/
abbrev Doc := List (String × Value)

/-- Python `d[k] = v` / dict-comprehension entry: replace the value in
place when the key is present, append otherwise. -/
def dictSet (d : Doc) (k : String) (v : Value) : Doc :=
  if d.any (fun p => p.1 = k) then
    d.map (fun p => if p.1 = k then (k, v) else p)
  else
    d ++ [(k, v)]

/-- Python `d.get(k)` / `d[k]`: the value at the first matching key. -/
def dictGet (d : Doc) (k : String) : Option Value :=
  (d.find? (fun p => p.1 = k)).map (fun p => p.2)

/-- One result row of the reporting API: positional dimension values and
metric values, all strings. -/
structure Row where
  dimensionValues : List String
  metricValues : List String
deriving DecidableEq

/-- Digits of a decimal numeral folded to a natural number. -/
def digitsToNat (l : List Char) : Nat :=
  l.foldl (fun a c => a * 10 + (c.toNat - 48)) 0

/-- Strip leading and trailing whitespace, as Python `int`/`float` do
before parsing. -/
def stripSpaces (l : List Char) : List Char :=
  ((l.dropWhile Char.isWhitespace).reverse.dropWhile Char.isWhitespace).reverse

/-- Split an optional leading sign from a numeral, returning the sign as
`1` or `-1` and the remaining characters. -/
def splitSign : List Char → Int × List Char
  | '-' :: rest => (-1, rest)
  | '+' :: rest => (1, rest)
  | l => (1, l)

/-- Python `int(s)` on a decimal string: optional surrounding whitespace,
optional sign, then at least one digit; anything else raises
`ValueError`, modelled as `none`.  (Underscore digit grouping is not
modelled; the reporting API never produces it.) -/
def pyParseInt (s : String) : Option Int :=
  let t := stripSpaces s.data
  let (sign, ds) := splitSign t
  if ds ≠ [] ∧ ds.all Char.isDigit then some (sign * (digitsToNat ds : Int)) else none

/-- Split a character list on every occurrence of a separator character,
like Python `str.split` with a one-character separator. -/
def splitOnChar (sep : Char) : List Char → List (List Char)
  | [] => [[]]
  | c :: cs =>
    match splitOnChar sep cs with
    | [] => [[]]
    | g :: gs => if c = sep then [] :: g :: gs else (c :: g) :: gs

/-- Python `"x/y".split("/")[-1]`: the last slash-separated component of
a resource name, used to extract the numeric property id from
`properties/<id>`. -/
def propertyIdOf (s : String) : String :=
  String.mk ((splitOnChar '/' s.data).getLastD [])

/-- The mantissa of a float literal: `digits`, `digits.digits`,
`.digits` or `digits.` with at least one digit in total, returned as the
digit string read as a natural number together with the length of the
fractional part (the denoted value is digits over ten to that length). -/
def parseMantissaParts (l : List Char) : Option (Nat × Nat) :=
  match splitOnChar '.' l with
  | [ip] =>
    if ip ≠ [] ∧ ip.all Char.isDigit then some (digitsToNat ip, 0) else none
  | [ip, fp] =>
    if (ip ≠ [] ∨ fp ≠ []) ∧ ip.all Char.isDigit ∧ fp.all Char.isDigit then
      some (digitsToNat (ip ++ fp), fp.length)
    else none
  | _ => none

/-- The exact rational `sign * digits * 10 ^ dexp` of a decimal literal,
assembled with integer arithmetic and one `mkRat`. -/
def decimalToRat (sign : Int) (digits : Nat) (dexp : Int) : ℚ :=
  if 0 ≤ dexp then mkRat (sign * ((digits * 10 ^ dexp.toNat : Nat) : Int)) 1
  else mkRat (sign * (digits : Int)) (10 ^ (-dexp).toNat)

/-- Python `float(s)` on a finite decimal literal: optional surrounding
whitespace, optional sign, mantissa, optional `e`/`E` exponent.  The
value is the exact rational denoted by the literal (see the module
comment on rounding); `inf`/`nan` literals and underscore grouping are
not modelled. -/
def pyParseFloat (s : String) : Option ℚ :=
  let t := stripSpaces s.data
  let (sign, body) := splitSign t
  let withExp : List (List Char) :=
    match splitOnChar 'e' body with
    | [m] => (match splitOnChar 'E' m with
      | [m0] => [m0]
      | [m0, e0] => [m0, e0]
      | _ => [])
    | [m, e] => [m, e]
    | _ => []
  match withExp with
  | [m] =>
    (parseMantissaParts m).map (fun pr => decimalToRat sign pr.1 (-(pr.2 : Int)))
  | [m, e] =>
    match parseMantissaParts m with
    | none => none
    | some pr =>
      let (esign, eds) := splitSign e
      if eds ≠ [] ∧ eds.all Char.isDigit then
        some (decimalToRat sign pr.1
          (esign * (digitsToNat eds : Int) - (pr.2 : Int)))
      else none
  | _ => none

/-- The fleet exporter coerces a metric with `int(value or 0)`: an empty
(falsy) string becomes the integer `0`, otherwise the string is parsed
as an integer. -/
def coerceIntPy (s : String) : Option Int :=
  if s = "" then some 0 else pyParseInt s

/-- `float(value or 0)`: an empty string becomes `0.0`, otherwise the
string is parsed as a float. -/
def coerceFloatPy (s : String) : Option ℚ :=
  if s = "" then some 0 else pyParseFloat s

/-- Reduction to a 32-bit machine word. -/
def w32 (n : Nat) : Nat := n % 2 ^ 32

/-- 32-bit left rotation of a word. -/
def rotl32 (x n : Nat) : Nat := w32 ((x <<< n) ||| (x >>> (32 - n)))

/-- The per-step shift amounts of MD5 (RFC 1321). -/
def md5S : List Nat :=
  [7, 12, 17, 22, 7, 12, 17, 22, 7, 12, 17, 22, 7, 12, 17, 22,
   5, 9, 14, 20, 5, 9, 14, 20, 5, 9, 14, 20, 5, 9, 14, 20,
   4, 11, 16, 23, 4, 11, 16, 23, 4, 11, 16, 23, 4, 11, 16, 23,
   6, 10, 15, 21, 6, 10, 15, 21, 6, 10, 15, 21, 6, 10, 15, 21]

/-- The sine-derived additive constants of MD5 (RFC 1321). -/
def md5K : List Nat :=
  [0xd76aa478, 0xe8c7b756, 0x242070db, 0xc1bdceee,
   0xf57c0faf, 0x4787c62a, 0xa8304613, 0xfd469501,
   0x698098d8, 0x8b44f7af, 0xffff5bb1, 0x895cd7be,
   0x6b901122, 0xfd987193, 0xa679438e, 0x49b40821,
   0xf61e2562, 0xc040b340, 0x265e5a51, 0xe9b6c7aa,
   0xd62f105d, 0x02441453, 0xd8a1e681, 0xe7d3fbc8,
   0x21e1cde6, 0xc33707d6, 0xf4d50d87, 0x455a14ed,
   0xa9e3e905, 0xfcefa3f8, 0x676f02d9, 0x8d2a4c8a,
   0xfffa3942, 0x8771f681, 0x6d9d6122, 0xfde5380c,
   0xa4beea44, 0x4bdecfa9, 0xf6bb4b60, 0xbebfbc70,
   0x289b7ec6, 0xeaa127fa, 0xd4ef3085, 0x04881d05,
   0xd9d4d039, 0xe6db99e5, 0x1fa27cf8, 0xc4ac5665,
   0xf4292244, 0x432aff97, 0xab9423a7, 0xfc93a039,
   0x655b59c3, 0x8f0ccc92, 0xffeff47d, 0x85845dd1,
   0x6fa87e4f, 0xfe2ce6e0, 0xa3014314, 0x4e0811a1,
   0xf7537e82, 0xbd3af235, 0x2ad7d2bb, 0xeb86d391]

/-- The round function of MD5: F, G, H, I selected by the step index. -/
def md5F (i b c d : Nat) : Nat :=
  if i < 16 then (b &&& c) ||| ((b ^^^ 0xffffffff) &&& d)
  else if i < 32 then (d &&& b) ||| ((d ^^^ 0xffffffff) &&& c)
  else if i < 48 then b ^^^ c ^^^ d
  else c ^^^ (b ||| (d ^^^ 0xffffffff))

/-- The message-word index schedule of MD5. -/
def md5G (i : Nat) : Nat :=
  if i < 16 then i
  else if i < 32 then (5 * i + 1) % 16
  else if i < 48 then (3 * i + 5) % 16
  else (7 * i) % 16

/-- One of the 64 steps of the MD5 compression function over the message
words `m`. -/
def md5Step (m : List Nat) (st : Nat × Nat × Nat × Nat) (i : Nat) :
    Nat × Nat × Nat × Nat :=
  match st with
  | (a, b, c, d) =>
    let f := w32 (md5F i b c d + a + md5K.getD i 0 + m.getD (md5G i) 0)
    (d, w32 (b + rotl32 f (md5S.getD i 0)), b, c)

/-- The MD5 compression function applied to one 16-word block. -/
def md5Compress (st : Nat × Nat × Nat × Nat) (m : List Nat) :
    Nat × Nat × Nat × Nat :=
  let r := (List.range 64).foldl (md5Step m) st
  (w32 (st.1 + r.1), w32 (st.2.1 + r.2.1), w32 (st.2.2.1 + r.2.2.1),
   w32 (st.2.2.2 + r.2.2.2))

/-- A list split into groups of four elements. -/
def chunk4 : List Nat → List (List Nat)
  | [] => []
  | a :: rest => (a :: rest.take 3) :: chunk4 (rest.drop 3)
termination_by l => l.length
decreasing_by simp; omega

/-- A list split into groups of sixty-four elements. -/
def chunk64 : List Nat → List (List Nat)
  | [] => []
  | a :: rest => (a :: rest.take 63) :: chunk64 (rest.drop 63)
termination_by l => l.length
decreasing_by simp; omega

/-- Four bytes read as a little-endian 32-bit word. -/
def leWord : List Nat → Nat
  | [b0, b1, b2, b3] => b0 + 256 * b1 + 65536 * b2 + 16777216 * b3
  | _ => 0

/-- The `k` low bytes of `n`, little-endian. -/
def leBytes (k n : Nat) : List Nat :=
  match k with
  | 0 => []
  | k + 1 => n % 256 :: leBytes k (n / 256)

/-- MD5 padding: a `0x80` byte, zeros to 56 mod 64, then the bit length
as a 64-bit little-endian integer. -/
def md5Pad (msg : List Nat) : List Nat :=
  msg ++ 0x80 :: List.replicate ((119 - msg.length % 64) % 64) 0 ++
    leBytes 8 (8 * msg.length)

/-- The MD5 initialization vector. -/
def md5Init : Nat × Nat × Nat × Nat :=
  (0x67452301, 0xefcdab89, 0x98badcfe, 0x10325476)

/-- The MD5 state after absorbing a whole padded message. -/
def md5FinalState (msg : List Nat) : Nat × Nat × Nat × Nat :=
  ((chunk64 (md5Pad msg)).map (fun block => (chunk4 block).map leWord)).foldl
    md5Compress md5Init

/-- The MD5 digest of a byte string, read as the 128-bit little-endian
integer formed by the words A, B, C, D. -/
def md5Digest (msg : List Nat) : Nat :=
  w32 (md5FinalState msg).1 + 2 ^ 32 * w32 (md5FinalState msg).2.1 +
    2 ^ 64 * w32 (md5FinalState msg).2.2.1 +
    2 ^ 96 * w32 (md5FinalState msg).2.2.2

/-- A lowercase hexadecimal digit. -/
def hexDigitChar (n : Nat) : Char :=
  if n < 10 then Char.ofNat (48 + n) else Char.ofNat (87 + n)

/-- A byte as two lowercase hexadecimal characters. -/
def byteHexChars (b : Nat) : List Char :=
  [hexDigitChar (b / 16 % 16), hexDigitChar (b % 16)]

/-- The 32-character hex rendering of a 128-bit digest, byte by byte in
little-endian order, exactly `hashlib.md5(...).hexdigest()`. -/
def hexOfDigest (n : Nat) : String :=
  String.mk (((List.range 16).map (fun i => n / 256 ^ i % 256)).flatMap byteHexChars)

/-- The UTF-8 encoding of a string as a byte list, Python `s.encode()`. -/
def utf8Bytes (s : String) : List Nat :=
  s.toUTF8.toList.map UInt8.toNat

/-- `hashlib.md5(s.encode()).hexdigest()`. -/
def md5Hex (s : String) : String :=
  hexOfDigest (md5Digest (utf8Bytes s))

/-- Lowercasing followed by the three `replace` calls of line 120 of
`ga4_export_all.py`, character by character (each of the three patterns
is a single character, so sequential `str.replace` is a character map):
space, underscore and period each become a hyphen. -/
def sanitizeChar (c : Char) : Char :=
  if c = ' ' ∨ c = '_' ∨ c = '.' then '-' else c

/-- `property_name.lower().replace(" ", "-").replace("_", "-").replace(".", "-")`. -/
def sanitizedName (s : String) : String :=
  String.mk (s.data.map (fun c => sanitizeChar c.toLower))

/-- The destination data stream name
`f"ga4metrics-{sanitized_name}-{property_id}"`. -/
def datastreamName (propertyName propertyId : String) : String :=
  "ga4metrics-" ++ sanitizedName propertyName ++ ("-" ++ propertyId)

/-- Fields joined with `"-"` separators, the shape of the f-string
building `doc_id_string` in both export flows. -/
def joinDash : List String → String
  | [] => ""
  | [s] => s
  | s :: rest => s ++ ("-" ++ joinDash rest)

/-- The key-material string of the fleet flow (line 192 of
`ga4_export_all.py`):
`f"{property_id}-{doc[date]}-{doc[pagePath]}-{doc[sessionSource]}-{doc[sessionMedium]}-{doc[country]}-{doc[city]}"`. -/
def docIdStringFleet
    (propertyId date pagePath sessionSource sessionMedium country city : String) :
    String :=
  joinDash [propertyId, date, pagePath, sessionSource, sessionMedium, country, city]

/-- The key-material string of the single-property flow (line 91 of
`ga4_export.py`): `f"{property_id}-{doc.get(date, )-{doc.get(pagePath, )}"`
with empty-string defaults. -/
def docIdStringSingle (propertyId date pagePath : String) : String :=
  joinDash [propertyId, date, pagePath]

/-- The values the fleet document builder reads out of one row:
dimension positions 0 to 6 and metric positions 0 to 7, with the metric
coercions of lines 177 to 184 of `ga4_export_all.py`.  `none` models the
`IndexError`/`ValueError` raised when the row is shorter than the
hard-coded positions or a non-empty metric does not parse. -/
structure FleetRowValues where
  pageTitle : String
  pagePath : String
  sessionSource : String
  sessionMedium : String
  country : String
  city : String
  date : String
  screenPageViews : Int
  scrolledUsers : Int
  activeUsers : Int
  userEngagementDuration : ℚ
  eventCount : Int
  sessions : Int
  totalUsers : Int
  engagedSessions : Int
deriving DecidableEq

/-- Reading and coercing the row fields used by the fleet document.
Positional access `dimension_values[0..6]` / `metric_values[0..7]`
succeeds exactly when the lists have at least 7 and 8 elements, which
the list patterns express; surplus values are ignored, as in the
source. -/
def fleetRowValues (r : Row) : Option FleetRowValues :=
  match r.dimensionValues, r.metricValues with
  | pageTitle :: pagePath :: sessionSource :: sessionMedium ::
      country :: city :: date :: _,
    m0 :: m1 :: m2 :: m3 :: m4 :: m5 :: m6 :: m7 :: _ => do
    let screenPageViews ← coerceIntPy m0
    let scrolledUsers ← coerceIntPy m1
    let activeUsers ← coerceIntPy m2
    let userEngagementDuration ← coerceFloatPy m3
    let eventCount ← coerceIntPy m4
    let sessions ← coerceIntPy m5
    let totalUsers ← coerceIntPy m6
    let engagedSessions ← coerceIntPy m7
    some { pageTitle := pageTitle, pagePath := pagePath,
           sessionSource := sessionSource, sessionMedium := sessionMedium,
           country := country, city := city, date := date,
           screenPageViews := screenPageViews, scrolledUsers := scrolledUsers,
           activeUsers := activeUsers,
           userEngagementDuration := userEngagementDuration,
           eventCount := eventCount, sessions := sessions,
           totalUsers := totalUsers, engagedSessions := engagedSessions }
  | _, _ => none

/-- The fleet document literal of lines 165 to 188 of
`ga4_export_all.py`, fields in source order (all dict keys are distinct,
so the dict literal is this association list). -/
def fleetDoc (propertyId propertyName ts : String) (v : FleetRowValues) : Doc :=
  [("property_id", Value.str propertyId),
   ("property_name", Value.str propertyName),
   ("pageTitle", Value.str v.pageTitle),
   ("pagePath", Value.str v.pagePath),
   ("sessionSource", Value.str v.sessionSource),
   ("sessionMedium", Value.str v.sessionMedium),
   ("country", Value.str v.country),
   ("city", Value.str v.city),
   ("date", Value.str v.date),
   ("screenPageViews", Value.int v.screenPageViews),
   ("scrolledUsers", Value.int v.scrolledUsers),
   ("activeUsers", Value.int v.activeUsers),
   ("userEngagementDuration", Value.float v.userEngagementDuration),
   ("eventCount", Value.int v.eventCount),
   ("sessions", Value.int v.sessions),
   ("totalUsers", Value.int v.totalUsers),
   ("engagedSessions", Value.int v.engagedSessions),
   ("@timestamp", Value.str ts)]

/-- The fleet row-to-document mapper: build the row values then the
document. -/
def mapRowFleet (propertyId propertyName ts : String) (r : Row) : Option Doc :=
  (fleetRowValues r).map (fleetDoc propertyId propertyName ts)

/-- The fleet document identity key: MD5 of the key-material string read
from the document fields (which equal the corresponding row values). -/
def fleetDocId (propertyId : String) (v : FleetRowValues) : String :=
  md5Hex (docIdStringFleet propertyId v.date v.pagePath v.sessionSource
    v.sessionMedium v.country v.city)

/-- The dimension part of the single-flow document:
`{dim.name: val.value for dim, val in zip(dimension_headers, row.dimension_values)}`. -/
def singleBaseDoc (dimensionHeaders : List String) (r : Row) : Doc :=
  (List.zip dimensionHeaders r.dimensionValues).foldl
    (fun d p => dictSet d p.1 (Value.str p.2)) []

/-- The single-property row-to-document mapper of lines 86 to 88 of
`ga4_export.py`: a dict comprehension zipping dimension headers with
dimension values, a `dict.update` zipping metric headers with
`float(val or 0)`, then the `@timestamp` field.  `zip` silently
truncates to the shorter operand.  `none` models the `ValueError` of an
unparsable non-empty metric value. -/
def mapRowSingle (dimensionHeaders metricHeaders : List String) (ts : String)
    (r : Row) : Option Doc :=
  ((List.zip metricHeaders r.metricValues).foldlM
      (fun d p => (coerceFloatPy p.2).map (fun q => dictSet d p.1 (Value.float q)))
      (singleBaseDoc dimensionHeaders r)).map
    (fun d => dictSet d "@timestamp" (Value.str ts))

/-- `doc.get(k, "")` for the dimension-string fields consulted by the
single-flow key (its `date` and `pagePath` fields are always dimension
strings when present). -/
def getStrD (d : Doc) (k : String) : String :=
  match dictGet d k with
  | some (Value.str s) => s
  | _ => ""

/-- The single-flow document identity key of lines 91 to 92 of
`ga4_export.py`. -/
def singleDocId (propertyId : String) (d : Doc) : String :=
  md5Hex (docIdStringSingle propertyId (getStrD d "date") (getStrD d "pagePath"))

/-- The ordered dimension list of the fleet report request (lines 130 to
138 of `ga4_export_all.py`). -/
def fleetDimensions : List String :=
  ["pageTitle", "pagePath", "sessionSource", "sessionMedium", "country",
   "city", "date"]

/-- The ordered metric list of the fleet report request (lines 139 to
148 of `ga4_export_all.py`). -/
def fleetMetrics : List String :=
  ["screenPageViews", "scrolledUsers", "activeUsers",
   "userEngagementDuration", "eventCount", "sessions", "totalUsers",
   "engagedSessions"]

/-- A report query description (`RunReportRequest`). -/
structure ReportRequest where
  property : String
  dimensions : List String
  metrics : List String
  dateRangeStart : String
  dateRangeEnd : String
  limit : Int
deriving DecidableEq

/-- The fleet report request of lines 128 to 151 of `ga4_export_all.py`:
a trailing window of `config.days_to_pull` days expressed as
`f"{days}daysAgo"`, whatever integer `days_to_pull` holds. -/
def buildFleetRequest (propertyId : String) (daysToPull reportLimit : Int) :
    ReportRequest :=
  { property := "properties/" ++ propertyId,
    dimensions := fleetDimensions,
    metrics := fleetMetrics,
    dateRangeStart := toString daysToPull ++ "daysAgo",
    dateRangeEnd := "today",
    limit := reportLimit }

/-- The document store: the set of existing data streams and the indexed
documents.  `es.index(index=..., id=..., document=...)` is an upsert
keyed by the pair (index, id); the association list records writes most
recent first, so the current document of a key is its first entry and the
logical key set is the set of first components. -/
structure Store where
  streams : List String
  docs : List ((String × String) × Doc)

/-- The store before any write. -/
def emptyStore : Store := { streams := [], docs := [] }

/-- `es.index(index=ds, document=d, id=docId)` — an upsert by key. -/
def storePut (store : Store) (ds docId : String) (d : Doc) : Store :=
  { store with docs := ((ds, docId), d) :: store.docs }

/-- The set of distinct logical document identities present in the
store. -/
def docKeys (store : Store) : Finset (String × String) :=
  (store.docs.map Prod.fst).toFinset

/-- `create_datastream_if_not_exists`: create the stream when absent;
a creation failure (`createOk = false`) is swallowed and the run
continues (lines 100 to 113 of `ga4_export_all.py`). -/
def ensureDatastream (createOk : Bool) (name : String) (store : Store) : Store :=
  if name ∈ store.streams then store
  else if createOk then { store with streams := name :: store.streams } else store

/-- The write loop of lines 162 to 196 of `ga4_export_all.py`.  `n` is
`doc_count`.  A row whose mapping raises (`none`) or a failing
`es.index` call (`writeOk n = false`) propagates to the enclosing
`except`, which returns 0 — the store keeps the documents already
indexed before the failure. -/
def exportRowsGo (propertyId propertyName ts : String) (writeOk : Nat → Bool)
    (ds : String) : List Row → Store → Nat → Nat × Store
  | [], store, n => (n, store)
  | r :: rs, store, n =>
    match fleetRowValues r with
    | none => (0, store)
    | some v =>
      if writeOk n then
        exportRowsGo propertyId propertyName ts writeOk ds rs
          (storePut store ds (fleetDocId propertyId v)
            (fleetDoc propertyId propertyName ts v))
          (n + 1)
      else (0, store)

/-- `export_property_data(ga_client, es, property_id, property_name)`:
provision the data stream (best-effort), fetch the report (`ga`), return
0 on fetch failure or zero rows, otherwise run the write loop.  Every
exception inside the body is caught by the final `except`, which
returns 0. -/
def exportPropertyData (ga : Except Unit (List Row)) (writeOk : Nat → Bool)
    (createOk : Bool) (propertyId propertyName ts : String) (store : Store) :
    Nat × Store :=
  let ds := datastreamName propertyName propertyId
  let store1 := ensureDatastream createOk ds store
  match ga with
  | Except.error _ => (0, store1)
  | Except.ok rows =>
    if rows.length = 0 then (0, store1)
    else exportRowsGo propertyId propertyName ts writeOk ds rows store1 0

/-- The keys the write loop manages to index before completing or
failing; mirrors `exportRowsGo` and depends on neither the store nor the
ingestion timestamp. -/
def goKeys (propertyId : String) (writeOk : Nat → Bool) (ds : String) :
    List Row → Nat → List (String × String)
  | [], _ => []
  | r :: rs, n =>
    match fleetRowValues r with
    | none => []
    | some v =>
      if writeOk n then
        (ds, fleetDocId propertyId v) :: goKeys propertyId writeOk ds rs (n + 1)
      else []

/-- The keys one call of `exportPropertyData` writes. -/
def exportKeys (ga : Except Unit (List Row)) (writeOk : Nat → Bool)
    (propertyId propertyName : String) : List (String × String) :=
  match ga with
  | Except.error _ => []
  | Except.ok rows =>
    if rows.length = 0 then []
    else goKeys propertyId writeOk (datastreamName propertyName propertyId) rows 0

/-- Whether the write loop aborts with an exception (row mapping raised,
or a write was refused). -/
def goAborts (writeOk : Nat → Bool) : List Row → Nat → Bool
  | [], _ => false
  | r :: rs, n =>
    match fleetRowValues r with
    | none => true
    | some _ => if writeOk n then goAborts writeOk rs (n + 1) else true

/-- One discovered property together with the behaviour of the external
collaborators during its export: the fetch outcome of
`ga_client.run_report` and the success of each `es.index` call and of
data stream creation. -/
structure PropInput where
  resource : String
  displayName : String
  ga : Except Unit (List Row)
  writeOk : Nat → Bool
  createOk : Bool

/-- One account summary: its property summaries in listing order. -/
structure AccountSummary where
  account : String
  displayName : String
  props : List PropInput

/-- Ground truth of whether the export of a property raised (and was caught
at the per-property boundary): fetch error, a malformed row, or a failed
write.  A fetch that succeeds with zero rows is not a failure. -/
def propertyFailed (p : PropInput) : Bool :=
  match p.ga with
  | Except.error _ => true
  | Except.ok rows =>
    if rows.length = 0 then false else goAborts p.writeOk rows 0

/-- The per-property export as invoked by `main`: the property id is the
last slash component of the resource name. -/
def perPropExport (ts : String) (p : PropInput) (store : Store) : Nat × Store :=
  exportPropertyData p.ga p.writeOk p.createOk (propertyIdOf p.resource)
    p.displayName ts store

/-- The document count one property contributes (0 on failure or on zero
rows); independent of the store state, as proved below. -/
def perPropCount (ts : String) (p : PropInput) : Nat :=
  (perPropExport ts p emptyStore).1

/-- The keys the export of one property writes. -/
def perPropKeys (p : PropInput) : List (String × String) :=
  exportKeys p.ga p.writeOk (propertyIdOf p.resource) p.displayName

/-- The per-property loop of `main` (lines 243 to 259 of
`ga4_export_all.py`) over the flattened discovery order, accumulating
`total_properties` and `total_documents` and threading the store. -/
def runProps (ts : String) : List PropInput → Store → Nat → Nat →
    Nat × Nat × Store
  | [], store, nProps, nDocs => (nProps, nDocs, store)
  | p :: ps, store, nProps, nDocs =>
    let r := perPropExport ts p store
    runProps ts ps r.2 (nProps + 1) (nDocs + r.1)

/-- The nested account/property iteration of `main` visits exactly the
concatenation of the property summaries in account order. -/
def discoveredProps (accounts : List AccountSummary) : List PropInput :=
  accounts.flatMap (fun a => a.props)

/-- A full post-discovery run of `main` starting from an empty
accumulator. -/
def runMain (ts : String) (accounts : List AccountSummary) (store : Store) :
    Nat × Nat × Store :=
  runProps ts (discoveredProps accounts) store 0 0

/-- The printed run summary (lines 262 to 268): the total properties
processed and the total documents exported — the only per-run counters
`main` keeps. -/
def runSummary (ts : String) (accounts : List AccountSummary) (store : Store) :
    Nat × Nat :=
  ((runMain ts accounts store).1, (runMain ts accounts store).2.1)

/-- Ground-truth number of properties whose export failed in a run. -/
def failedCount (accounts : List AccountSummary) : Nat :=
  ((discoveredProps accounts).filter propertyFailed).length

/-- Python truthiness of a `os.getenv` result: `None` and the empty
string are falsy. -/
def truthy : Option String → Bool
  | none => false
  | some s => !(s == "")

/-- The configuration record loaded by `GAConfig.__init__` from the
environment (`ga_auth.py` lines 11 to 30). -/
structure GAConfig where
  credentials_path : Option String
  account_id : Option String
  property_id : Option String
  days_to_pull : Int
  report_limit : Int
  elasticsearch_host : Option String
  elasticsearch_api_key : Option String
deriving DecidableEq

/-- `GAConfig.__init__`: read the environment; `days_to_pull` and
`report_limit` are `int(os.getenv(..., default))` with defaults 30 and
100000 and no further checks (`none` models the `ValueError` of a
non-integer setting). -/
def configFromEnv (env : String → Option String) : Option GAConfig := do
  let days ← pyParseInt ((env "GA_DAYS_TO_PULL").getD "30")
  let lim ← pyParseInt ((env "GA_REPORT_LIMIT").getD "100000")
  some { credentials_path := env "GA_CREDENTIALS_PATH",
         account_id := env "GA_ACCOUNT_ID",
         property_id := env "GA_PROPERTY_ID",
         days_to_pull := days,
         report_limit := lim,
         elasticsearch_host := env "ELASTICSEARCH_HOST",
         elasticsearch_api_key := env "ELASTICSEARCH_API_KEY" }

/-- `GAConfig.validate_ga_config` (`ga_auth.py` lines 32 to 40):
account or property id set, credentials path set, credentials file
exists — and nothing else. -/
def validateGAConfig (cfg : GAConfig) (pathExists : String → Bool) :
    Except String Unit :=
  if !truthy cfg.account_id && !truthy cfg.property_id then
    Except.error "GA_ACCOUNT_ID or GA_PROPERTY_ID environment variable must be set"
  else if !truthy cfg.credentials_path then
    Except.error "GA_CREDENTIALS_PATH environment variable is not set"
  else if !pathExists (cfg.credentials_path.getD "") then
    Except.error "GA Service Account credentials file not found"
  else Except.ok ()

/-- `GAConfig.validate_elasticsearch_config` (`ga_auth.py` lines 42
to 45). -/
def validateESConfig (cfg : GAConfig) : Except String Unit :=
  if !truthy cfg.elasticsearch_host then
    Except.error "ELASTICSEARCH_HOST environment variable is not set"
  else Except.ok ()

/-- The union of the key sets written by a list of properties. -/
def keysUnion : List PropInput → Finset (String × String)
  | [] => ∅
  | p :: ps => (perPropKeys p).toFinset ∪ keysUnion ps

/-- A failure in a per-property step that reaches the per-property
boundary: the fetch raised, a row cannot be mapped, or one of the first
writes fails.  A provisioning failure is not included: the source
swallows it inside `create_datastream_if_not_exists` (lines 110 to 113
of `ga4_export_all.py`) and the export proceeds, so it never reaches the
boundary and the property can still succeed. -/
def propStepFails (p : PropInput) : Prop :=
  p.ga = Except.error () ∨
    ∃ rows, p.ga = Except.ok rows ∧
      ((∃ r ∈ rows, fleetRowValues r = none) ∨
        ∃ n, n < rows.length ∧ p.writeOk n = false)

/-- Whether a string contains two adjacent hyphen characters. -/
def hasDoubleHyphenAux : List Char → Bool
  | c1 :: c2 :: rest => ((c1 == '-') && (c2 == '-')) || hasDoubleHyphenAux (c2 :: rest)
  | _ => false

/-- Whether a destination name carries a consecutive-hyphen artifact. -/
def hasDoubleHyphen (s : String) : Bool := hasDoubleHyphenAux s.data

/-- A well-formed fleet row used in concrete scenarios. -/
def goodRow : Row :=
  { dimensionValues :=
      ["Home", "/home", "google", "organic", "US", "Los Angeles", "20240101"],
    metricValues := ["1", "2", "3", "4.5", "5", "6", "7", "8"] }

/-- The coerced values of `goodRow`. -/
def goodVals : FleetRowValues :=
  { pageTitle := "Home", pagePath := "/home", sessionSource := "google",
    sessionMedium := "organic", country := "US", city := "Los Angeles",
    date := "20240101", screenPageViews := 1, scrolledUsers := 2,
    activeUsers := 3, userEngagementDuration := mkRat 9 2, eventCount := 5,
    sessions := 6, totalUsers := 7, engagedSessions := 8 }

/-- A row that raises inside the document builder: no values at all. -/
def badRow : Row := { dimensionValues := [], metricValues := [] }

/-- Two rows identical except for the `pageTitle` dimension (position 0
of the dimension tuple of the fleet query). -/
def rowT1 : Row :=
  { dimensionValues :=
      ["Title A", "/home", "google", "organic", "US", "Los Angeles", "20240101"],
    metricValues := ["1", "2", "3", "4.5", "5", "6", "7", "8"] }

/-- See `rowT1`. -/
def rowT2 : Row :=
  { dimensionValues :=
      ["Title B", "/home", "google", "organic", "US", "Los Angeles", "20240101"],
    metricValues := ["1", "2", "3", "4.5", "5", "6", "7", "8"] }

/-- The single-flow example row of the spec. -/
def exampleRow : Row :=
  { dimensionValues := ["20240101", "/home"], metricValues := ["42", ""] }

/-- A fleet row with a numeric first metric and all other metric values
empty. -/
def fleetEmptyMetricsRow : Row :=
  { dimensionValues :=
      ["Home", "/home", "google", "organic", "US", "Los Angeles", "20240101"],
    metricValues := ["42", "", "", "", "", "", "", ""] }

/-- A discovered property whose export succeeds with one row. -/
def propOkInput : PropInput :=
  { resource := "properties/1", displayName := "One",
    ga := Except.ok [goodRow], writeOk := fun _ => true, createOk := true }

/-- A discovered property whose fetch raises (an upstream query error). -/
def propFailInput : PropInput :=
  { resource := "properties/2", displayName := "Two",
    ga := Except.error (), writeOk := fun _ => true, createOk := true }

/-- A discovered property whose fetch succeeds with zero rows. -/
def propEmptyInput : PropInput :=
  { resource := "properties/3", displayName := "Three",
    ga := Except.ok [], writeOk := fun _ => true, createOk := true }

/-- A discovered property whose data stream provisioning fails but whose
fetch and writes succeed. -/
def propProvFailInput : PropInput :=
  { resource := "properties/5", displayName := "Five",
    ga := Except.ok [goodRow], writeOk := fun _ => true, createOk := false }

/-- A third successful property for the three-property scenario. -/
def propOkInput2 : PropInput :=
  { resource := "properties/4", displayName := "Four",
    ga := Except.ok [goodRow], writeOk := fun _ => true, createOk := true }

/-- A one-account discovery whose single property fails at fetch. -/
def acctsFail : List AccountSummary :=
  [{ account := "accounts/1", displayName := "Acct", props := [propFailInput] }]

/-- A one-account discovery whose single property is merely empty. -/
def acctsEmpty : List AccountSummary :=
  [{ account := "accounts/1", displayName := "Acct", props := [propEmptyInput] }]

/-- An environment with a negative trailing window and otherwise valid
settings. -/
def envC9 : String → Option String := fun k =>
  if k = "GA_DAYS_TO_PULL" then some "-5"
  else if k = "GA_ACCOUNT_ID" then some "123"
  else if k = "GA_CREDENTIALS_PATH" then some "/creds.json"
  else if k = "ELASTICSEARCH_HOST" then some "http://localhost:9200"
  else none

/-- The configuration `GAConfig.__init__` loads from `envC9`. -/
def cfgC9 : GAConfig :=
  { credentials_path := some "/creds.json", account_id := some "123",
    property_id := none, days_to_pull := -5, report_limit := 100000,
    elasticsearch_host := some "http://localhost:9200",
    elasticsearch_api_key := none }

theorem string_data_append (s t : String) : (s ++ t).data = s.data ++ t.data := by
  cases s
  cases t
  rfl

theorem string_data_inj {s t : String} (h : s.data = t.data) : s = t := by
  cases s
  cases t
  exact congrArg String.mk h

theorem string_append_cancel_left {a x y : String} (h : a ++ x = a ++ y) :
    x = y := by
  apply string_data_inj
  have hd := congrArg String.data h
  rw [string_data_append, string_data_append] at hd
  exact (List.append_inj hd rfl).2

theorem string_append_cancel_right {x y b : String} (h : x ++ b = y ++ b) :
    x = y := by
  apply string_data_inj
  have hd := congrArg String.data h
  rw [string_data_append, string_data_append] at hd
  have hl : x.data.length = y.data.length := by
    have hlen := congrArg List.length hd
    rw [List.length_append, List.length_append] at hlen
    omega
  exact (List.append_inj hd hl).1

theorem joinDash_cons_cons (s x : String) (xs : List String) :
    joinDash (s :: x :: xs) = s ++ ("-" ++ joinDash (x :: xs)) := rfl

theorem joinDash_cons_append (q : String) (pre : List String) (v : String)
    (post : List String) :
    joinDash (q :: (pre ++ v :: post)) =
      q ++ ("-" ++ joinDash (pre ++ v :: post)) := by
  cases pre with
  | nil => exact joinDash_cons_cons q v post
  | cons p ps => exact joinDash_cons_cons q p (ps ++ v :: post)

/-- Changing exactly one field of a dash-joined field list, all other
fields held fixed, always changes the joined key-material string:
string concatenation is cancellative. -/
theorem joinDash_sensitive (pre : List String) (v w : String)
    (post : List String) (hvw : v ≠ w) :
    joinDash (pre ++ v :: post) ≠ joinDash (pre ++ w :: post) := by
  induction pre with
  | nil =>
    cases post with
    | nil => simpa [joinDash] using hvw
    | cons q qs =>
      intro h
      simp only [List.nil_append] at h
      rw [joinDash_cons_cons, joinDash_cons_cons] at h
      exact hvw (string_append_cancel_right h)
  | cons q pre ih =>
    intro h
    apply ih
    have h1 : q ++ ("-" ++ joinDash (pre ++ v :: post)) =
        q ++ ("-" ++ joinDash (pre ++ w :: post)) := by
      rw [← joinDash_cons_append, ← joinDash_cons_append]
      exact h
    exact string_append_cancel_left (string_append_cancel_left h1)

theorem string_replicate_injective :
    Function.Injective (fun n => String.mk (List.replicate n 'a')) := by
  intro m n h
  have hd : List.replicate m 'a' = List.replicate n 'a' := congrArg String.data h
  simpa using congrArg List.length hd

instance : Infinite String :=
  Infinite.of_injective (fun n => String.mk (List.replicate n 'a'))
    string_replicate_injective

theorem w32_lt (n : Nat) : w32 n < 2 ^ 32 := Nat.mod_lt _ (by norm_num)

/-- The digest is a 128-bit quantity: the Document Identity Function has
a finite codomain. -/
theorem md5Digest_lt (msg : List Nat) : md5Digest msg < 2 ^ 128 := by
  have e32 : (2 : Nat) ^ 32 = 4294967296 := by norm_num
  have e64 : (2 : Nat) ^ 64 = 18446744073709551616 := by norm_num
  have e96 : (2 : Nat) ^ 96 = 79228162514264337593543950336 := by norm_num
  have e128 : (2 : Nat) ^ 128 = 340282366920938463463374607431768211456 := by
    norm_num
  have h1 := w32_lt (md5FinalState msg).1
  have h2 := w32_lt (md5FinalState msg).2.1
  have h3 := w32_lt (md5FinalState msg).2.2.1
  have h4 := w32_lt (md5FinalState msg).2.2.2
  unfold md5Digest
  rw [e32] at h1 h2 h3 h4
  rw [e32, e64, e96, e128]
  omega

theorem ensure_docs (createOk : Bool) (name : String) (store : Store) :
    (ensureDatastream createOk name store).docs = store.docs := by
  unfold ensureDatastream
  split
  · rfl
  · split <;> rfl

theorem ensure_docKeys (createOk : Bool) (name : String) (store : Store) :
    docKeys (ensureDatastream createOk name store) = docKeys store := by
  unfold docKeys
  rw [ensure_docs]

theorem go_fst_store_indep (pid pname ts : String) (writeOk : Nat → Bool)
    (ds : String) :
    ∀ (rows : List Row) (n : Nat) (s1 s2 : Store),
      (exportRowsGo pid pname ts writeOk ds rows s1 n).1 =
        (exportRowsGo pid pname ts writeOk ds rows s2 n).1 := by
  intro rows
  induction rows with
  | nil => intro n s1 s2; rfl
  | cons r rs ih =>
    intro n s1 s2
    simp only [exportRowsGo]
    cases fleetRowValues r with
    | none => rfl
    | some v =>
      by_cases hw : writeOk n = true
      · simp only [hw, if_true]
        exact ih (n + 1) _ _
      · simp [hw]

theorem export_fst_store_indep (ga : Except Unit (List Row))
    (writeOk : Nat → Bool) (createOk : Bool) (pid pname ts : String)
    (s1 s2 : Store) :
    (exportPropertyData ga writeOk createOk pid pname ts s1).1 =
      (exportPropertyData ga writeOk createOk pid pname ts s2).1 := by
  unfold exportPropertyData
  cases ga with
  | error e => rfl
  | ok rows =>
    by_cases h : rows.length = 0
    · simp only [h, if_true]
    · simp only [h, if_false]
      exact go_fst_store_indep pid pname ts writeOk _ rows 0 _ _

theorem perPropExport_fst (ts : String) (p : PropInput) (store : Store) :
    (perPropExport ts p store).1 = perPropCount ts p := by
  unfold perPropCount perPropExport
  exact export_fst_store_indep _ _ _ _ _ _ _ _

theorem export_fst_createOk_indep (ga : Except Unit (List Row))
    (writeOk : Nat → Bool) (c1 c2 : Bool) (pid pname ts : String)
    (store : Store) :
    (exportPropertyData ga writeOk c1 pid pname ts store).1 =
      (exportPropertyData ga writeOk c2 pid pname ts store).1 := by
  unfold exportPropertyData
  cases ga with
  | error e => rfl
  | ok rows =>
    by_cases h : rows.length = 0
    · simp only [h, if_true]
    · simp only [h, if_false]
      exact go_fst_store_indep pid pname ts writeOk _ rows 0 _ _

theorem docKeys_storePut (store : Store) (ds docId : String) (d : Doc) :
    docKeys (storePut store ds docId d) = insert (ds, docId) (docKeys store) := by
  unfold docKeys storePut
  simp

theorem go_docKeys (pid pname ts : String) (writeOk : Nat → Bool) (ds : String) :
    ∀ (rows : List Row) (n : Nat) (store : Store),
      docKeys (exportRowsGo pid pname ts writeOk ds rows store n).2 =
        (goKeys pid writeOk ds rows n).toFinset ∪ docKeys store := by
  intro rows
  induction rows with
  | nil => intro n store; simp [exportRowsGo, goKeys]
  | cons r rs ih =>
    intro n store
    simp only [exportRowsGo, goKeys]
    cases fleetRowValues r with
    | none => simp
    | some v =>
      by_cases hw : writeOk n = true
      · simp only [hw, if_true]
        rw [ih, docKeys_storePut]
        simp [Finset.union_insert, Finset.insert_union]
      · simp [hw]

theorem export_docKeys (ga : Except Unit (List Row)) (writeOk : Nat → Bool)
    (createOk : Bool) (pid pname ts : String) (store : Store) :
    docKeys (exportPropertyData ga writeOk createOk pid pname ts store).2 =
      (exportKeys ga writeOk pid pname).toFinset ∪ docKeys store := by
  unfold exportPropertyData exportKeys
  cases ga with
  | error e => simp [ensure_docKeys]
  | ok rows =>
    by_cases h : rows.length = 0
    · simp [h, ensure_docKeys]
    · simp only [h, if_false]
      rw [go_docKeys, ensure_docKeys]

theorem perPropExport_docKeys (ts : String) (p : PropInput) (store : Store) :
    docKeys (perPropExport ts p store).2 =
      (perPropKeys p).toFinset ∪ docKeys store := by
  unfold perPropExport perPropKeys
  exact export_docKeys _ _ _ _ _ _ _

theorem runProps_fst (ts : String) :
    ∀ (props : List PropInput) (store : Store) (a b : Nat),
      (runProps ts props store a b).1 = a + props.length := by
  intro props
  induction props with
  | nil => intro store a b; simp [runProps]
  | cons p ps ih =>
    intro store a b
    simp only [runProps]
    rw [ih]
    simp
    omega

theorem runProps_snd (ts : String) :
    ∀ (props : List PropInput) (store : Store) (a b : Nat),
      (runProps ts props store a b).2.1 =
        b + (props.map (perPropCount ts)).sum := by
  intro props
  induction props with
  | nil => intro store a b; simp [runProps]
  | cons p ps ih =>
    intro store a b
    simp only [runProps]
    rw [ih]
    rw [perPropExport_fst]
    simp
    omega

theorem runProps_docKeys (ts : String) :
    ∀ (props : List PropInput) (store : Store) (a b : Nat),
      docKeys (runProps ts props store a b).2.2 =
        keysUnion props ∪ docKeys store := by
  intro props
  induction props with
  | nil => intro store a b; simp [runProps, keysUnion]
  | cons p ps ih =>
    intro store a b
    simp only [runProps, keysUnion]
    rw [ih, perPropExport_docKeys]
    rw [Finset.union_left_comm, Finset.union_assoc]

theorem keysUnion_append (l1 l2 : List PropInput) :
    keysUnion (l1 ++ l2) = keysUnion l1 ∪ keysUnion l2 := by
  induction l1 with
  | nil => simp [keysUnion]
  | cons p ps ih =>
    simp only [List.cons_append, keysUnion, List.append_eq]
    rw [ih, Finset.union_assoc]

theorem go_count_zero (pid pname ts : String) (writeOk : Nat → Bool)
    (ds : String) :
    ∀ (rows : List Row) (n : Nat) (store : Store),
      ((∃ r ∈ rows, fleetRowValues r = none) ∨
        ∃ m, n ≤ m ∧ m < n + rows.length ∧ writeOk m = false) →
      (exportRowsGo pid pname ts writeOk ds rows store n).1 = 0 := by
  intro rows
  induction rows with
  | nil =>
    intro n store h
    rcases h with ⟨r, hr, _⟩ | ⟨m, _, hm2, _⟩
    · exact absurd hr (List.not_mem_nil r)
    · simp at hm2
      omega
  | cons r rs ih =>
    intro n store h
    simp only [exportRowsGo]
    cases hv : fleetRowValues r with
    | none => rfl
    | some v =>
      by_cases hw : writeOk n = true
      · simp only [hw, if_true]
        apply ih
        rcases h with ⟨r0, hr0, hr0n⟩ | ⟨m, hm1, hm2, hm3⟩
        · rcases List.mem_cons.mp hr0 with heq | hmem
          · subst heq
            rw [hv] at hr0n
            cases hr0n
          · exact Or.inl ⟨r0, hmem, hr0n⟩
        · refine Or.inr ⟨m, ?_, ?_, hm3⟩
          · rcases Nat.eq_or_lt_of_le hm1 with heq | hlt
            · subst heq
              rw [hw] at hm3
              simp at hm3
            · omega
          · simp at hm2
            omega
      · simp [hw]

theorem perPropCount_zero_of_fails (ts : String) (p : PropInput)
    (hp : propStepFails p) : perPropCount ts p = 0 := by
  unfold perPropCount perPropExport exportPropertyData
  rcases hp with herr | ⟨rows, hok, hfail⟩
  · rw [herr]
  · rw [hok]
    by_cases h0 : rows.length = 0
    · simp [h0]
    · simp only [h0, if_false]
      apply go_count_zero
      rcases hfail with hrow | ⟨n, hn, hwn⟩
      · exact Or.inl hrow
      · exact Or.inr ⟨n, Nat.zero_le n, by omega, hwn⟩

theorem dictSet_nonnull {d : Doc} {k : String} {v : Value}
    (hd : ∀ q ∈ d, q.2 ≠ Value.null) (hv : v ≠ Value.null) :
    ∀ q ∈ dictSet d k v, q.2 ≠ Value.null := by
  intro q hq
  unfold dictSet at hq
  split at hq
  · rcases List.mem_map.mp hq with ⟨p0, hp0, hpq⟩
    by_cases hk : p0.1 = k
    · rw [if_pos hk] at hpq
      rw [← hpq]
      exact hv
    · rw [if_neg hk] at hpq
      rw [← hpq]
      exact hd p0 hp0
  · rcases List.mem_append.mp hq with hmem | hmem
    · exact hd q hmem
    · rcases List.mem_singleton.mp hmem with rfl
      exact hv

theorem foldl_dictSet_str_nonnull :
    ∀ (l : List (String × String)) (d : Doc),
      (∀ q ∈ d, q.2 ≠ Value.null) →
      ∀ q ∈ l.foldl (fun acc p => dictSet acc p.1 (Value.str p.2)) d,
        q.2 ≠ Value.null := by
  intro l
  induction l with
  | nil => intro d hd; exact hd
  | cons x xs ih =>
    intro d hd
    simp only [List.foldl_cons]
    exact ih _ (dictSet_nonnull hd (fun h => Value.noConfusion h))

theorem singleBaseDoc_nonnull (dims : List String) (r : Row) :
    ∀ q ∈ singleBaseDoc dims r, q.2 ≠ Value.null :=
  foldl_dictSet_str_nonnull (List.zip dims r.dimensionValues) []
    (fun q hq => absurd hq (List.not_mem_nil q))

theorem foldlM_coerce_some :
    ∀ (l : List (String × String)) (d : Doc),
      (∀ p ∈ l, (coerceFloatPy p.2).isSome) →
      (∀ q ∈ d, q.2 ≠ Value.null) →
      ∃ d2,
        l.foldlM (fun acc p => (coerceFloatPy p.2).map
          (fun q => dictSet acc p.1 (Value.float q))) d = some d2 ∧
        ∀ q ∈ d2, q.2 ≠ Value.null := by
  intro l
  induction l with
  | nil => intro d _ hd; exact ⟨d, rfl, hd⟩
  | cons x xs ih =>
    intro d hsome hd
    obtain ⟨qv, hqv⟩ := Option.isSome_iff_exists.mp
      (hsome x (List.mem_cons_self x xs))
    obtain ⟨d2, hd2, hnn⟩ := ih (dictSet d x.1 (Value.float qv))
      (fun p hp => hsome p (List.mem_cons_of_mem _ hp))
      (dictSet_nonnull hd (fun h => Value.noConfusion h))
    refine ⟨d2, ?_, hnn⟩
    rw [List.foldlM_cons, hqv]
    simpa using hd2

/-- C1: Replay idempotence of the write-back: running the per-property
pipeline (map each row to a document, derive its identity key, upsert by
that key) twice over the same fetched header/row data — with possibly
different ingestion timestamps — produces exactly the set of distinct
document identity keys of a single run, and hence the same number of
logical documents, not double. -/
theorem replay_idempotent (ga : Except Unit (List Row)) (writeOk : Nat → Bool)
    (createOk : Bool) (pid pname ts1 ts2 : String) (store : Store) :
    docKeys (exportPropertyData ga writeOk createOk pid pname ts2
        (exportPropertyData ga writeOk createOk pid pname ts1 store).2).2 =
      docKeys (exportPropertyData ga writeOk createOk pid pname ts1 store).2 ∧
    (docKeys (exportPropertyData ga writeOk createOk pid pname ts2
        (exportPropertyData ga writeOk createOk pid pname ts1 store).2).2).card =
      (docKeys (exportPropertyData ga writeOk createOk pid pname ts1 store).2).card := by
  have h : docKeys (exportPropertyData ga writeOk createOk pid pname ts2
      (exportPropertyData ga writeOk createOk pid pname ts1 store).2).2 =
      docKeys (exportPropertyData ga writeOk createOk pid pname ts1 store).2 := by
    rw [export_docKeys, export_docKeys, ← Finset.union_assoc, Finset.union_self]
  exact ⟨h, congrArg Finset.card h⟩

/-- C2 (counterexample): the Document Identity Function is not
collision-free over its key material: the key is a 128-bit MD5 digest,
so by pigeonhole there exist two distinct values of a single
key-material field (the city, all other fields held at the concrete
values shown) that produce the identical key. -/
theorem identity_key_not_collision_free :
    ¬ ∀ c1 c2 : String, c1 ≠ c2 →
      md5Hex (docIdStringFleet "123456" "20240101" "/home" "google" "organic"
          "US" c1) ≠
        md5Hex (docIdStringFleet "123456" "20240101" "/home" "google" "organic"
          "US" c2) := by
  intro h
  obtain ⟨c1, c2, hne, heq⟩ := Finite.exists_ne_map_eq_of_infinite
    (fun c : String =>
      (⟨md5Digest (utf8Bytes
          (docIdStringFleet "123456" "20240101" "/home" "google" "organic" "US" c)),
        md5Digest_lt _⟩ : Fin (2 ^ 128)))
  have hv := congrArg Fin.val heq
  exact h c1 c2 hne (congrArg hexOfDigest hv)

/-- C2 (amended): the Document Identity Function is deterministic —
identical key-material field values always yield the identical key —
and any change to a single key-material field yields a different
key-material string (the serialization that is hashed); the fixed-length
hash itself admits collisions in principle, so collision-freeness holds
at the pre-hash key-material level rather than for the 128-bit key. -/
theorem identity_key_determinism_and_prehash_sensitivity :
    (∀ (pid : String) (v1 v2 : FleetRowValues), v1.date = v2.date →
      v1.pagePath = v2.pagePath → v1.sessionSource = v2.sessionSource →
      v1.sessionMedium = v2.sessionMedium → v1.country = v2.country →
      v1.city = v2.city → fleetDocId pid v1 = fleetDocId pid v2) ∧
    (∀ p1 p2 d pp s m c ci : String, p1 ≠ p2 →
      docIdStringFleet p1 d pp s m c ci ≠ docIdStringFleet p2 d pp s m c ci) ∧
    (∀ p d1 d2 pp s m c ci : String, d1 ≠ d2 →
      docIdStringFleet p d1 pp s m c ci ≠ docIdStringFleet p d2 pp s m c ci) ∧
    (∀ p d pp1 pp2 s m c ci : String, pp1 ≠ pp2 →
      docIdStringFleet p d pp1 s m c ci ≠ docIdStringFleet p d pp2 s m c ci) ∧
    (∀ p d pp s1 s2 m c ci : String, s1 ≠ s2 →
      docIdStringFleet p d pp s1 m c ci ≠ docIdStringFleet p d pp s2 m c ci) ∧
    (∀ p d pp s m1 m2 c ci : String, m1 ≠ m2 →
      docIdStringFleet p d pp s m1 c ci ≠ docIdStringFleet p d pp s m2 c ci) ∧
    (∀ p d pp s m c1 c2 ci : String, c1 ≠ c2 →
      docIdStringFleet p d pp s m c1 ci ≠ docIdStringFleet p d pp s m c2 ci) ∧
    (∀ p d pp s m c ci1 ci2 : String, ci1 ≠ ci2 →
      docIdStringFleet p d pp s m c ci1 ≠ docIdStringFleet p d pp s m c ci2) := by
  refine ⟨?_, ?_, ?_, ?_, ?_, ?_, ?_, ?_⟩
  · intro pid v1 v2 h1 h2 h3 h4 h5 h6
    unfold fleetDocId
    rw [h1, h2, h3, h4, h5, h6]
  · intro p1 p2 d pp s m c ci h
    exact joinDash_sensitive [] p1 p2 [d, pp, s, m, c, ci] h
  · intro p d1 d2 pp s m c ci h
    exact joinDash_sensitive [p] d1 d2 [pp, s, m, c, ci] h
  · intro p d pp1 pp2 s m c ci h
    exact joinDash_sensitive [p, d] pp1 pp2 [s, m, c, ci] h
  · intro p d pp s1 s2 m c ci h
    exact joinDash_sensitive [p, d, pp] s1 s2 [m, c, ci] h
  · intro p d pp s m1 m2 c ci h
    exact joinDash_sensitive [p, d, pp, s] m1 m2 [c, ci] h
  · intro p d pp s m c1 c2 ci h
    exact joinDash_sensitive [p, d, pp, s, m] c1 c2 [ci] h
  · intro p d pp s m c ci1 ci2 h
    exact joinDash_sensitive [p, d, pp, s, m, c] ci1 ci2 [] h

/-- Witness for the C2 amended theorem at concrete inputs. -/
theorem identity_key_determinism_and_prehash_sensitivity_witness :
    fleetDocId "9" goodVals = fleetDocId "9" goodVals ∧
    docIdStringFleet "1" "d" "p" "s" "m" "c" "x" ≠
      docIdStringFleet "2" "d" "p" "s" "m" "c" "x" ∧
    docIdStringFleet "1" "da" "p" "s" "m" "c" "x" ≠
      docIdStringFleet "1" "db" "p" "s" "m" "c" "x" ∧
    docIdStringFleet "1" "d" "pa" "s" "m" "c" "x" ≠
      docIdStringFleet "1" "d" "pb" "s" "m" "c" "x" ∧
    docIdStringFleet "1" "d" "p" "sa" "m" "c" "x" ≠
      docIdStringFleet "1" "d" "p" "sb" "m" "c" "x" ∧
    docIdStringFleet "1" "d" "p" "s" "ma" "c" "x" ≠
      docIdStringFleet "1" "d" "p" "s" "mb" "c" "x" ∧
    docIdStringFleet "1" "d" "p" "s" "m" "ca" "x" ≠
      docIdStringFleet "1" "d" "p" "s" "m" "cb" "x" ∧
    docIdStringFleet "1" "d" "p" "s" "m" "c" "xa" ≠
      docIdStringFleet "1" "d" "p" "s" "m" "c" "xb" := by
  obtain ⟨h1, h2, h3, h4, h5, h6, h7, h8⟩ :=
    identity_key_determinism_and_prehash_sensitivity
  exact ⟨h1 "9" goodVals goodVals rfl rfl rfl rfl rfl rfl,
    h2 "1" "2" "d" "p" "s" "m" "c" "x" (by decide),
    h3 "1" "da" "db" "p" "s" "m" "c" "x" (by decide),
    h4 "1" "d" "pa" "pb" "s" "m" "c" "x" (by decide),
    h5 "1" "d" "p" "sa" "sb" "m" "c" "x" (by decide),
    h6 "1" "d" "p" "s" "ma" "mb" "c" "x" (by decide),
    h7 "1" "d" "p" "s" "m" "ca" "cb" "x" (by decide),
    h8 "1" "d" "p" "s" "m" "c" "xa" "xb" (by decide)⟩

/-- C3 (counterexample): a provisioning failure is not recorded as zero
documents / failed: when data stream creation fails for an otherwise
healthy property, the export proceeds anyway (the source logs and
continues, lines 110 to 113 of `ga4_export_all.py`), indexes its
document, and returns the positive count 1, and the ground-truth failure
flag is false — so the claim is false for the provision step it names. -/
theorem provision_failure_not_recorded_as_failed :
    propProvFailInput.createOk = false ∧
    perPropCount "T" propProvFailInput = 1 ∧
    propertyFailed propProvFailInput = false ∧
    ((perPropExport "T" propProvFailInput emptyStore).2).docs.map Prod.fst =
      [(datastreamName "Five" "5", fleetDocId "5" goodVals)] := by
  refine ⟨rfl, by decide, by decide, rfl⟩

/-- C3 (amended): a failure in the fetch, mapping, or write step of one
property is caught at the per-property boundary, the result of that
property is recorded as zero documents, the attempted count still covers
every discovered property, the total document count equals that of the
run without the failing property, and every key written for the other
properties is still written; a provisioning failure, by contrast, is
swallowed inside the provisioner before the boundary — the export
proceeds and its count is the same as with successful provisioning (so
it, too, never aborts the run for the remaining properties, but it is
not recorded as a failure). -/
theorem per_property_isolation (xs : List PropInput) (p : PropInput)
    (ys : List PropInput) (ts : String) (store : Store)
    (hp : propStepFails p) :
    (runProps ts (xs ++ p :: ys) store 0 0).1 = xs.length + 1 + ys.length ∧
    perPropCount ts p = 0 ∧
    (runProps ts (xs ++ p :: ys) store 0 0).2.1 =
      (runProps ts (xs ++ ys) store 0 0).2.1 ∧
    docKeys (runProps ts (xs ++ ys) store 0 0).2.2 ⊆
      docKeys (runProps ts (xs ++ p :: ys) store 0 0).2.2 ∧
    (∀ (ga : Except Unit (List Row)) (writeOk : Nat → Bool)
       (pid pname : String) (st : Store),
      (exportPropertyData ga writeOk false pid pname ts st).1 =
        (exportPropertyData ga writeOk true pid pname ts st).1) := by
  have hc := perPropCount_zero_of_fails ts p hp
  refine ⟨?_, hc, ?_, ?_, ?_⟩
  · rw [runProps_fst]
    simp [List.length_append]
    omega
  · rw [runProps_snd, runProps_snd]
    simp [List.map_append, List.sum_append, hc]
  · rw [runProps_docKeys, runProps_docKeys, keysUnion_append, keysUnion_append]
    simp only [keysUnion]
    intro k hk
    simp only [Finset.mem_union] at hk ⊢
    tauto
  · intro ga writeOk pid pname st
    exact export_fst_createOk_indep ga writeOk false true pid pname ts st

/-- Witness for the C3 amended theorem: the spec scenario with three
discovered properties where the fetch of the second property raises. -/
theorem per_property_isolation_witness :
    (runProps "T" [propOkInput, propFailInput, propOkInput2] emptyStore 0 0).1 =
      3 ∧
    perPropCount "T" propFailInput = 0 ∧
    (runProps "T" [propOkInput, propFailInput, propOkInput2] emptyStore 0 0).2.1 =
      (runProps "T" [propOkInput, propOkInput2] emptyStore 0 0).2.1 ∧
    docKeys (runProps "T" [propOkInput, propOkInput2] emptyStore 0 0).2.2 ⊆
      docKeys
        (runProps "T" [propOkInput, propFailInput, propOkInput2] emptyStore 0 0).2.2 ∧
    (∀ (ga : Except Unit (List Row)) (writeOk : Nat → Bool)
       (pid pname : String) (st : Store),
      (exportPropertyData ga writeOk false pid pname "T" st).1 =
        (exportPropertyData ga writeOk true pid pname "T" st).1) := by
  simpa using per_property_isolation [propOkInput] propFailInput [propOkInput2]
    "T" emptyStore (Or.inl rfl)

/-- C4 (code evaluation at the failing input): with 2 declared dimension
headers and a row carrying 1 dimension value, the single-property mapper
silently truncates — it returns a document with no `pagePath` field and
raises no error, and the identity key is then built with an empty page
path — instead of failing with `MalformedRowError` (no such error exists
anywhere in the code).  The fleet mapper does raise on its own
misaligned rows (an `IndexError`), shown by the third conjunct. -/
theorem malformed_row_not_rejected :
    mapRowSingle ["date", "pagePath"] ["screenPageViews", "sessions"] "T"
        { dimensionValues := ["20240101"], metricValues := ["42", ""] } =
      some [("date", Value.str "20240101"),
            ("screenPageViews", Value.float 42), ("sessions", Value.float 0),
            ("@timestamp", Value.str "T")] ∧
    dictGet [("date", Value.str "20240101"), ("screenPageViews", Value.float 42),
        ("sessions", Value.float 0), ("@timestamp", Value.str "T")] "pagePath" =
      none ∧
    fleetRowValues { dimensionValues := ["20240101"], metricValues := ["42", ""] } =
      none ∧
    singleDocId "P" [("date", Value.str "20240101"),
        ("screenPageViews", Value.float 42), ("sessions", Value.float 0),
        ("@timestamp", Value.str "T")] =
      md5Hex (docIdStringSingle "P" "20240101" "") := by
  refine ⟨by decide, by decide, by decide, rfl⟩

/-- C5: Metric coercion: when the value counts of the row match the declared
headers and every metric value is empty or numeric, the mapper succeeds,
no document field is ever null, an empty metric coerces to zero under
both the single-flow float coercion and the fleet integer coercion, the
concrete example of the spec maps as stated (all single-flow metrics carry
the float numeric kind), and the fleet flow coerces empties to integer 0
or float 0 according to the declared kind of each metric. -/
theorem metric_coercion_never_null (dims mets : List String) (ts : String)
    (r : Row) (hd : r.dimensionValues.length = dims.length)
    (hm : r.metricValues.length = mets.length)
    (hv : ∀ v ∈ r.metricValues, v = "" ∨ (pyParseFloat v).isSome) :
    (∃ d, mapRowSingle dims mets ts r = some d ∧ ∀ q ∈ d, q.2 ≠ Value.null) ∧
    coerceFloatPy "" = some 0 ∧ coerceIntPy "" = some 0 ∧
    mapRowSingle ["date", "pagePath"] ["screenPageViews", "sessions"] "T"
        exampleRow =
      some [("date", Value.str "20240101"), ("pagePath", Value.str "/home"),
            ("screenPageViews", Value.float 42), ("sessions", Value.float 0),
            ("@timestamp", Value.str "T")] ∧
    (fleetRowValues fleetEmptyMetricsRow).map
        (fun v => (v.screenPageViews, v.sessions, v.userEngagementDuration)) =
      some (42, 0, 0) := by
  refine ⟨?_, by decide, by decide, by decide, by decide⟩
  have hsome : ∀ p ∈ List.zip mets r.metricValues, (coerceFloatPy p.2).isSome := by
    intro p hp
    have hmem : p.2 ∈ r.metricValues := (List.of_mem_zip hp).2
    rcases hv p.2 hmem with he | hs
    · rw [he]
      decide
    · unfold coerceFloatPy
      split
      · simp
      · exact hs
  obtain ⟨d2, hd2, hnn⟩ := foldlM_coerce_some (List.zip mets r.metricValues)
    (singleBaseDoc dims r) hsome (singleBaseDoc_nonnull dims r)
  refine ⟨dictSet d2 "@timestamp" (Value.str ts), ?_,
    dictSet_nonnull hnn (fun h => Value.noConfusion h)⟩
  unfold mapRowSingle
  rw [hd2]
  rfl

/-- Witness for C5 at the concrete example of the spec. -/
theorem metric_coercion_never_null_witness :
    (∃ d, mapRowSingle ["date", "pagePath"] ["screenPageViews", "sessions"] "T"
        exampleRow = some d ∧ ∀ q ∈ d, q.2 ≠ Value.null) ∧
    coerceFloatPy "" = some 0 ∧ coerceIntPy "" = some 0 ∧
    mapRowSingle ["date", "pagePath"] ["screenPageViews", "sessions"] "T"
        exampleRow =
      some [("date", Value.str "20240101"), ("pagePath", Value.str "/home"),
            ("screenPageViews", Value.float 42), ("sessions", Value.float 0),
            ("@timestamp", Value.str "T")] ∧
    (fleetRowValues fleetEmptyMetricsRow).map
        (fun v => (v.screenPageViews, v.sessions, v.userEngagementDuration)) =
      some (42, 0, 0) :=
  metric_coercion_never_null ["date", "pagePath"]
    ["screenPageViews", "sessions"] "T" exampleRow (by decide) (by decide)
    (by decide)

/-- C6 (counterexample): for display name `My Site, Inc.` and id
`123456` the destination name keeps the comma (only spaces, underscores
and periods are replaced) and contains a double hyphen, so it is not
made of lowercase letters, digits and hyphens only and has a
consecutive-separator artifact. -/
theorem destination_name_counterexample :
    datastreamName "My Site, Inc." "123456" = "ga4metrics-my-site,-inc--123456" ∧
    ¬ (∀ c ∈ (datastreamName "My Site, Inc." "123456").data,
        c.isLower ∨ c.isDigit ∨ c = '-') ∧
    hasDoubleHyphen (datastreamName "My Site, Inc." "123456") = true := by
  refine ⟨by decide, by decide, by decide⟩

/-- C6 (amended): the destination name is
`ga4metrics-<lowercased name with each space, underscore and period
replaced by a hyphen>-<property id>`; the sanitization is exactly that
character map (other punctuation is preserved and hyphen runs are not
collapsed), it is a pure function of the two inputs, and no space,
underscore or period survives in it. -/
theorem destination_name_amended (name pid : String) :
    datastreamName name pid =
      "ga4metrics-" ++ sanitizedName name ++ ("-" ++ pid) ∧
    sanitizedName name =
      String.mk (name.data.map (fun c => sanitizeChar c.toLower)) ∧
    (∀ c ∈ (sanitizedName name).data, c ≠ ' ' ∧ c ≠ '_' ∧ c ≠ '.') := by
  refine ⟨rfl, rfl, ?_⟩
  intro c hc
  rcases List.mem_map.mp hc with ⟨x, hx, hcx⟩
  rw [← hcx]
  unfold sanitizeChar
  split
  · exact ⟨by decide, by decide, by decide⟩
  · rename_i hcond
    push_neg at hcond
    exact ⟨hcond.1, hcond.2.1, hcond.2.2⟩

/-- C7 (counterexample): `pageTitle` is part of the fleet
query dimension tuple but is excluded from the identity key material: two rows
that differ only in the `pageTitle` dimension receive the identical
document identity key. -/
theorem fleet_key_ignores_pageTitle :
    "pageTitle" ∈ (buildFleetRequest "123" 30 100000).dimensions ∧
    rowT1 ≠ rowT2 ∧
    rowT1.dimensionValues.getD 0 "" ≠ rowT2.dimensionValues.getD 0 "" ∧
    (fleetRowValues rowT1).map (fleetDocId "123") =
      (fleetRowValues rowT2).map (fleetDocId "123") := by
  refine ⟨?_, by decide, by decide, ?_⟩
  · show "pageTitle" ∈ fleetDimensions
    decide
  · rfl

/-- C7 (amended): in the fleet flow the identity key is derived from the
property identifier, the date, and the queried dimension tuple minus
`pageTitle` (page path, session source, session medium, country, city);
the property identifier is genuinely part of the key material — changing
it alone changes the key-material string. -/
theorem fleet_key_material_amended :
    (∀ (pid : String) (v : FleetRowValues), fleetDocId pid v =
      md5Hex (joinDash [pid, v.date, v.pagePath, v.sessionSource,
        v.sessionMedium, v.country, v.city])) ∧
    (∀ (pid pt : String) (v : FleetRowValues),
      fleetDocId pid { v with pageTitle := pt } = fleetDocId pid v) ∧
    (∀ p1 p2 d pp s m c ci : String, p1 ≠ p2 →
      docIdStringFleet p1 d pp s m c ci ≠ docIdStringFleet p2 d pp s m c ci) := by
  refine ⟨fun pid v => rfl, fun pid pt v => rfl, ?_⟩
  intro p1 p2 d pp s m c ci h
  exact joinDash_sensitive [] p1 p2 [d, pp, s, m, c, ci] h

/-- Witness for the C7 amended theorem at concrete inputs. -/
theorem fleet_key_material_amended_witness :
    fleetDocId "1" goodVals =
      md5Hex (joinDash ["1", goodVals.date, goodVals.pagePath,
        goodVals.sessionSource, goodVals.sessionMedium, goodVals.country,
        goodVals.city]) ∧
    fleetDocId "1" { goodVals with pageTitle := "Other" } =
      fleetDocId "1" goodVals ∧
    docIdStringFleet "1" "d" "p" "s" "m" "c" "x" ≠
      docIdStringFleet "2" "d" "p" "s" "m" "c" "x" :=
  ⟨fleet_key_material_amended.1 "1" goodVals,
   fleet_key_material_amended.2.1 "1" "Other" goodVals,
   fleet_key_material_amended.2.2 "1" "2" "d" "p" "s" "m" "c" "x" (by decide)⟩

/-- C8 (counterexample): the printed summary carries only the attempted
property count and the total document count — it cannot be reporting
succeeded or failed property counts: a run whose single property fails
at fetch and a run whose single property succeeds with zero rows produce
the identical summary while their failed counts differ. -/
theorem summary_lacks_failed_count :
    runSummary "T" acctsFail emptyStore = runSummary "T" acctsEmpty emptyStore ∧
    failedCount acctsFail ≠ failedCount acctsEmpty := by
  refine ⟨rfl, by decide⟩

/-- C8 (amended): every run that reaches the per-property iteration
terminates with a summary reporting the attempted property count and the
total documents written, regardless of how many individual properties
failed; succeeded/failed property counts are not part of the summary. -/
theorem run_summary_always (ts : String) (accounts : List AccountSummary)
    (store : Store) :
    (runMain ts accounts store).1 = (discoveredProps accounts).length ∧
    (runMain ts accounts store).2.1 =
      ((discoveredProps accounts).map (perPropCount ts)).sum := by
  unfold runMain
  refine ⟨?_, ?_⟩
  · rw [runProps_fst]
    exact Nat.zero_add _
  · rw [runProps_snd]
    exact Nat.zero_add _

/-- C9 (counterexample): a non-positive trailing window is not rejected
before the pipeline runs: with `GA_DAYS_TO_PULL=-5` the configuration
loads, both validators accept it, and the Report Request Builder embeds
`-5daysAgo` in the query instead of surfacing a configuration error. -/
theorem window_not_validated :
    configFromEnv envC9 = some cfgC9 ∧
    cfgC9.days_to_pull < 0 ∧
    validateGAConfig cfgC9 (fun _ => true) = Except.ok () ∧
    validateESConfig cfgC9 = Except.ok () ∧
    (buildFleetRequest "123" cfgC9.days_to_pull cfgC9.report_limit).dateRangeStart =
      "-5daysAgo" := by
  refine ⟨by decide, by decide, rfl, rfl, by decide⟩

/-- C9 (amended): the window length is parsed as an integer with default
30 when unset, `validate_ga_config` is insensitive to it (so non-positive
values pass validation rather than being surfaced as configuration
errors), and the Report Request Builder accepts and interpolates
whatever integer is configured. -/
theorem window_validation_amended (cfg : GAConfig) (pathEx : String → Bool)
    (d : Int) (pid : String) (lim : Int) :
    validateGAConfig { cfg with days_to_pull := d } pathEx =
      validateGAConfig cfg pathEx ∧
    (buildFleetRequest pid d lim).dateRangeStart = toString d ++ "daysAgo" ∧
    configFromEnv (fun _ => none) =
      some { credentials_path := none, account_id := none, property_id := none,
             days_to_pull := 30, report_limit := 100000,
             elasticsearch_host := none, elasticsearch_api_key := none } := by
  exact ⟨rfl, rfl, by decide⟩

/-- C10: the fleet per-property export returns a count of 0 on any
exception and on an empty fetch alike: a fetch error returns 0, zero
rows return 0, and a mid-loop mapping failure returns 0 even though the
document indexed before the failure stays in the store — the write-back
is not atomic on error, the reported count undercounts actual writes,
and the returned count cannot distinguish a failed property from an
empty one. -/
theorem export_zero_count_ambiguous (writeOk : Nat → Bool) (createOk : Bool)
    (pid pname ts : String) (store : Store) :
    (exportPropertyData (Except.error ()) writeOk createOk pid pname ts store).1 =
      0 ∧
    (exportPropertyData (Except.ok []) writeOk createOk pid pname ts store).1 =
      0 ∧
    (exportPropertyData (Except.ok [goodRow, badRow]) (fun _ => true) true "1"
        "One" ts store).1 = 0 ∧
    ((exportPropertyData (Except.ok [goodRow, badRow]) (fun _ => true) true "1"
        "One" ts store).2).docs.map Prod.fst =
      (datastreamName "One" "1", fleetDocId "1" goodVals) ::
        (ensureDatastream true (datastreamName "One" "1") store).docs.map
          Prod.fst := by
  have hval : fleetRowValues goodRow = some goodVals := by decide
  have hbad : fleetRowValues badRow = none := by decide
  refine ⟨rfl, rfl, ?_, ?_⟩
  · simp [exportPropertyData, exportRowsGo, hval, hbad]
  · simp [exportPropertyData, exportRowsGo, hval, hbad, storePut]

end GA4Export
